import Mathlib

/-!
Verification of the SSH client (`ssh_client.py`) of this repository against
its natural-language specification.

The Python class `SSHClient` is embedded shallowly: its mutable fields become
a `SSHState` record, the paramiko transport is abstracted as an oracle value
describing what the underlying library call would do on this invocation
(success with given streams / a raised exception of a given class), raised
Python exceptions become `Except`/an explicit `raised` field, and calls into
the logging collaborator are collected as a `List LogEvent`.  Network I/O is
counted explicitly (`transportCalls` / `networkCalls`) so that the spec's
"zero network I/O" properties are statable.
-/

namespace SSHSpec

/-- The mutable attribute state of a Python `SSHClient` instance
(`__init__`, src/ssh_client.py lines 15-27).  `client` models the
`self.client` attribute (`None` or a paramiko client object, whose identity
is irrelevant here), `connected` the `self.connected` flag. -/
structure SSHState where
  hostname : String
  username : String
  password : Option String
  key_filename : Option String
  port : Nat
  timeout : Nat
  client : Option Unit
  connected : Bool
deriving DecidableEq, Repr

/-- `SSHClient.__init__`: a fresh instance has `client = None` and
`connected = False`. -/
def mkSSHClient (hostname username : String) (password key_filename : Option String)
    (port timeout : Nat) : SSHState :=
  { hostname := hostname, username := username, password := password,
    key_filename := key_filename, port := port, timeout := timeout,
    client := none, connected := false }

/-- Python truthiness of an optional string: `None` and `""` are falsy. -/
def truthy : Option String → Bool
  | none => false
  | some s => !(s == "")

/-- The guard `not self.connected or not self.client` (negated): the session
is live when the `connected` flag is set and `self.client` is not `None`. -/
def isLive (s : SSHState) : Bool :=
  s.connected && s.client.isSome

/-- The Python exception values that appear in `ssh_client.py`. -/
inductive PyError where
  | runtimeError (msg : String)
  | valueError (msg : String)
  | authenticationException
  | sshException (msg : String)
  | socketTimeout
  | socketError (msg : String)
  | otherError (msg : String)
deriving DecidableEq, Repr

/-- Events sent to the logging collaborator (`self.logger`). -/
inductive LogEvent where
  | debugMsg (msg : String)
  | debugPreview (preview : String)
  | infoMsg (msg : String)
  | errorMsg (msg : String)
deriving DecidableEq, Repr

/-- What the transport does when `client.exec_command` is invoked and its
streams are read: either the command completes (decoded stdout/stderr text
and the remote exit status), or a `paramiko.SSHException`, a
`socket.timeout`, or some other exception is raised mid-execution.  The
`captured` argument of the failure constructors records the output the
transport had produced before failing, so that the spec's claim about it can
be stated; the code never reads it. -/
inductive TransportOutcome where
  | ok (stdoutText stderrText : String) (exitStatus : Nat)
  | sshException (msg : String) (captured : String)
  | socketTimeout (captured : String)
  | otherException (msg : String) (captured : String)
deriving DecidableEq, Repr

/-- The result dictionary built by `execute_command`: exactly the four keys
`stdout`, `stderr`, `return_code`, `command` (lines 90-95 and the three
except-branch literals). -/
structure CommandResult where
  stdout : String
  stderr : String
  return_code : Int
  command : String
deriving DecidableEq, Repr

/-- Python `str.splitlines` restricted to `\n` boundaries (the only
line terminator relevant to the claims): no trailing empty line is
produced for a trailing newline. -/
def splitlines (s : String) : List String :=
  if s == "" then []
  else
    let parts := s.splitOn "\n"
    match parts.reverse with
    | "" :: rest => rest.reverse
    | _ => parts

/-- `'\n'.join(stdout_output.splitlines()[:10])` (line 98). -/
def previewOf (stdoutText : String) : String :=
  String.intercalate "\n" ((splitlines stdoutText).take 10)

deriving instance DecidableEq for Except

/-- Everything observable about one `execute_command` call: the value
returned or the exception raised, how many transport calls were made
(`client.exec_command` is the only one), and the log events emitted. -/
structure ExecTrace where
  result : Except PyError CommandResult
  transportCalls : Nat
  logs : List LogEvent
deriving DecidableEq, Repr

/-- The `CommandResult` produced by the body of `execute_command` once the
session is live, by transport outcome (lines 75-125): normal completion
returns the streams and remote status; `paramiko.SSHException` maps to
`return_code = -1`, `socket.timeout` to `-2`, any other exception to `-3`,
each with empty `stdout` and a diagnostic `stderr`. -/
def execResult (outcome : TransportOutcome) (command : String) (timeout : Nat) :
    CommandResult :=
  match outcome with
  | .ok out err code =>
      { stdout := out, stderr := err, return_code := (code : Int), command := command }
  | .sshException msg _ =>
      { stdout := "", stderr := msg, return_code := -1, command := command }
  | .socketTimeout _ =>
      { stdout := "", stderr := "Command timed out after " ++ toString timeout ++ " seconds",
        return_code := -2, command := command }
  | .otherException msg _ =>
      { stdout := "", stderr := msg, return_code := -3, command := command }

/-- The log events emitted by the body of `execute_command` by transport
outcome: the initial debug line always; on normal completion the
return-code debug line and the 10-line stdout preview; on each exception
branch only the corresponding `logger.error` line. -/
def execLogs (outcome : TransportOutcome) (command : String) (timeout : Nat) :
    List LogEvent :=
  LogEvent.debugMsg ("Executing command: " ++ command) ::
  match outcome with
  | .ok out _ code =>
      [LogEvent.debugMsg ("Command completed with return code: " ++ toString code),
       LogEvent.debugPreview (previewOf out)]
  | .sshException msg _ =>
      [LogEvent.errorMsg ("SSH execution error: " ++ msg)]
  | .socketTimeout _ =>
      [LogEvent.errorMsg ("Command timed out after " ++ toString timeout ++ " seconds")]
  | .otherException msg _ =>
      [LogEvent.errorMsg ("Unexpected execution error: " ++ msg)]

/-- `SSHClient.execute_command` (lines 70-125).  If the session is not live
it raises `RuntimeError("Not connected to remote system")` before touching
the transport; otherwise it makes exactly one transport call
(`client.exec_command` plus reading its streams) and never raises: every
exception class is caught and encoded as a sentinel `return_code`. -/
def execute_command (s : SSHState) (outcome : TransportOutcome)
    (command : String) (timeout : Nat) : ExecTrace :=
  if !isLive s then
    { result := .error (.runtimeError "Not connected to remote system"),
      transportCalls := 0, logs := [] }
  else
    { result := .ok (execResult outcome command timeout),
      transportCalls := 1, logs := execLogs outcome command timeout }

/-- Which credential `connect` puts into `connect_kwargs` (lines 44-47). -/
inductive AuthMethod where
  | key (path : String)
  | password (pw : String)
deriving DecidableEq, Repr

/-- What the one network call `self.client.connect(**connect_kwargs)` does:
succeed, or raise one of the exception classes matched by the handlers of
`connect` (lines 57-68). -/
inductive NetOutcome where
  | success
  | authFailure
  | sshError (msg : String)
  | sockError (msg : String)
  | unexpected (msg : String)
deriving DecidableEq, Repr

/-- Everything observable about one `connect` call: the final attribute
state, the boolean returned, the exception raised inside the try body (all
are caught by the handlers, so none propagates), the number of network
calls made (`client.connect` is the only one), which credential was placed
in `connect_kwargs`, and the log events. -/
structure ConnectTrace where
  state : SSHState
  returned : Bool
  raised : Option PyError
  networkCalls : Nat
  attemptedAuth : Option AuthMethod
  logs : List LogEvent
deriving DecidableEq, Repr

/-- The part of `connect` from the `self.client.connect(**connect_kwargs)`
call onward, given the credential already chosen (lines 51-68). -/
def connectNet (s1 : SSHState) (auth : AuthMethod) (net : NetOutcome) : ConnectTrace :=
  match net with
  | .success =>
      { state := { s1 with connected := true }, returned := true, raised := none,
        networkCalls := 1, attemptedAuth := some auth,
        logs := [.infoMsg ("Successfully connected to " ++ s1.hostname ++ ":" ++
                   toString s1.port)] }
  | .authFailure =>
      { state := s1, returned := false, raised := some .authenticationException,
        networkCalls := 1, attemptedAuth := some auth,
        logs := [.errorMsg "Authentication failed"] }
  | .sshError m =>
      { state := s1, returned := false, raised := some (.sshException m),
        networkCalls := 1, attemptedAuth := some auth,
        logs := [.errorMsg ("SSH connection error: " ++ m)] }
  | .sockError m =>
      { state := s1, returned := false, raised := some (.socketError m),
        networkCalls := 1, attemptedAuth := some auth,
        logs := [.errorMsg ("Socket error: " ++ m)] }
  | .unexpected m =>
      { state := s1, returned := false, raised := some (.otherError m),
        networkCalls := 1, attemptedAuth := some auth,
        logs := [.errorMsg ("Unexpected connection error: " ++ m)] }

/-- `SSHClient.connect` (lines 29-68).  It first assigns a fresh paramiko
client to `self.client`, then chooses the credential: `key_filename` if
truthy, else `password` if truthy, else it raises
`ValueError("Must provide either password or key file")` — which the
catch-all handler converts into a logged message and a `False` return,
before any network call is made. -/
def connect (s : SSHState) (net : NetOutcome) : ConnectTrace :=
  let s1 := { s with client := some () }
  if truthy s.key_filename then
    connectNet s1 (.key (s.key_filename.getD "")) net
  else if truthy s.password then
    connectNet s1 (.password (s.password.getD "")) net
  else
    { state := s1, returned := false,
      raised := some (.valueError "Must provide either password or key file"),
      networkCalls := 0, attemptedAuth := none,
      logs := [.errorMsg
        "Unexpected connection error: Must provide either password or key file"] }

/-- What `self.client.close()` does on this invocation. -/
inductive CloseOutcome where
  | ok
  | raises (msg : String)
deriving DecidableEq, Repr

/-- The fallible transport-close call inside `disconnect`. -/
def close_transport : CloseOutcome → Except PyError Unit
  | .ok => .ok ()
  | .raises m => .error (.otherError m)

/-- `SSHClient.disconnect` (lines 182-190).  If `self.client` is set it
closes it inside a `try`: on success it clears the `connected` flag and
logs; the `except Exception` handler catches any error from `close()` and
only logs it — note that `self.connected = False` sits before the handler,
so it is skipped when `close()` raises, and `self.client` is never reset to
`None`.  The function itself never raises and returns no value. -/
def disconnect (s : SSHState) (cb : CloseOutcome) : SSHState × List LogEvent :=
  if s.client.isSome then
    match close_transport cb with
    | .ok _ =>
        ({ s with connected := false },
         [.infoMsg ("Disconnected from " ++ s.hostname)])
    | .error e =>
        (s, [.errorMsg ("Error during disconnect: " ++ reprStr e)])
  else
    (s, [])

/-- The sftp-channel events observable during `upload_file`:
`client.open_sftp()`, `sftp.put(...)`, `sftp.close()`. -/
inductive SftpEvent where
  | opened
  | putCall
  | closed
deriving DecidableEq, Repr

/-- What `sftp.put(local_path, remote_path)` does on this invocation. -/
inductive PutOutcome where
  | ok
  | fails (msg : String)
deriving DecidableEq, Repr

/-- Everything observable about one `upload_file` call. -/
structure UploadTrace where
  result : Except PyError Bool
  sftpEvents : List SftpEvent
  logs : List LogEvent
deriving DecidableEq, Repr

/-- `SSHClient.upload_file` (lines 127-142).  After the liveness guard it
opens an sftp channel, puts the file, and closes the channel — the three
statements run in sequence inside `try` with no `finally`/`with`, so when
`put` raises, `sftp.close()` is never reached; the handler logs the error
and re-raises it (`raise e`). -/
def upload_file (s : SSHState) (put : PutOutcome)
    (local_path remote_path : String) : UploadTrace :=
  if !isLive s then
    { result := .error (.runtimeError "Not connected to remote system"),
      sftpEvents := [], logs := [] }
  else
    match put with
    | .ok =>
        { result := .ok true,
          sftpEvents := [.opened, .putCall, .closed],
          logs := [.infoMsg ("Successfully uploaded " ++ local_path ++ " to " ++
                     remote_path)] }
    | .fails m =>
        { result := .error (.otherError m),
          sftpEvents := [.opened, .putCall],
          logs := [.errorMsg ("File upload failed: " ++ m)] }

/-- The fixed probe battery of `get_system_info` (lines 154-163), in source
order: probe name paired with the shell command issued for it. -/
def infoCommands : List (String × String) :=
  [("hostname", "hostname"),
   ("kernel", "uname -r"),
   ("os", "cat /etc/os-release | grep PRETTY_NAME | cut -d= -f2 | tr -d \x27\"\x27"),
   ("architecture", "uname -m"),
   ("uptime", "uptime"),
   ("whoami", "whoami"),
   ("id", "id"),
   ("pwd", "pwd")]

/-- Python `str.strip()` with no argument: removes leading and trailing
whitespace. -/
def pyStrip (s : String) : String :=
  String.mk
    (((s.toList.dropWhile Char.isWhitespace).reverse.dropWhile
        Char.isWhitespace).reverse)

/-- The loop body of `get_system_info` over a list of (key, command) pairs:
each probe is one `execute_command` call with the default timeout 60; exit
code 0 yields the stripped stdout, anything else yields `"Unknown"`.  A
`RuntimeError` raised by `execute_command` (dead session) propagates. -/
def systemInfoLoop (s : SSHState) (probe : String → TransportOutcome) :
    List (String × String) → Except PyError (List (String × String))
  | [] => .ok []
  | (key, cmd) :: rest =>
      match (execute_command s (probe cmd) cmd 60).result with
      | .error e => .error e
      | .ok r =>
          match systemInfoLoop s probe rest with
          | .error e => .error e
          | .ok tail =>
              .ok ((key, if r.return_code == 0 then pyStrip r.stdout else "Unknown") :: tail)

/-- `SSHClient.get_system_info` (lines 150-172), with the transport oracle
`probe` giving the outcome of each issued command. -/
def get_system_info (s : SSHState) (probe : String → TransportOutcome) :
    Except PyError (List (String × String)) :=
  systemInfoLoop s probe infoCommands

/-- Whether `needle` is a leading segment of `hay`. -/
def matchesAt : List Char → List Char → Bool
  | [], _ => true
  | _ :: _, [] => false
  | c :: cs, d :: ds => c == d && matchesAt cs ds

/-- Whether `needle` occurs as a contiguous segment of the second list. -/
def containsSub (needle : List Char) : List Char → Bool
  | [] => matchesAt needle []
  | d :: ds => matchesAt needle (d :: ds) || containsSub needle ds

/-- Substring containment, Python's `needle in hay`. -/
def strContains (hay needle : String) : Bool :=
  containsSub needle.toList hay.toList

/-- `SSHClient.test_connectivity` (lines 174-180): runs the canary command
with timeout 10 inside a bare `except`, so any raised error (in particular
the `RuntimeError` of a dead session) collapses to `False`; otherwise it
returns whether the exit code is 0 and the marker occurs in stdout. -/
def test_connectivity (s : SSHState) (outcome : TransportOutcome) : Bool :=
  match (execute_command s outcome "echo \"connectivity_test\"" 10).result with
  | .error _ => false
  | .ok r => r.return_code == 0 && strContains r.stdout "connectivity_test"

/-- Whether a log-event list contains a stdout-preview event. -/
def hasPreview (l : List LogEvent) : Bool :=
  l.any fun e =>
    match e with
    | .debugPreview _ => true
    | _ => false

/-- A connected session, as left by a successful key-based `connect`. -/
def liveS : SSHState :=
  { hostname := "10.0.0.5", username := "root", password := none,
    key_filename := some "/k", port := 22, timeout := 30,
    client := some (), connected := true }

/-- A freshly constructed client that never connected. -/
def deadS : SSHState := mkSSHClient "10.0.0.5" "root" none none 22 30

/-- A configuration carrying both a key reference and a password. -/
def bothCreds : SSHState := mkSSHClient "h" "u" (some "pw") (some "/k") 22 30

/-- A configuration carrying only a password. -/
def pwOnly : SSHState := mkSSHClient "h" "u" (some "pw") none 22 30

/-- A configuration carrying neither credential. -/
def noCreds : SSHState := mkSSHClient "h" "u" none none 22 30

/-- C1: on a session that is not live (connected flag false or no underlying
client), `execute_command` raises the `NotConnected` failure
(`RuntimeError("Not connected to remote system")`) immediately: zero
transport calls are made, no execution channel is opened, and nothing is
even logged. -/
theorem execute_requires_connection (s : SSHState) (outcome : TransportOutcome)
    (cmd : String) (t : Nat) (h : isLive s = false) :
    execute_command s outcome cmd t =
      { result := .error (.runtimeError "Not connected to remote system"),
        transportCalls := 0, logs := [] } := by
  simp [execute_command, h]

theorem execute_requires_connection_witness :
    isLive deadS = false ∧
    execute_command deadS (.ok "x" "" 0) "ls" 60 =
      { result := .error (.runtimeError "Not connected to remote system"),
        transportCalls := 0, logs := [] } :=
  ⟨rfl, execute_requires_connection deadS (.ok "x" "" 0) "ls" 60 rfl⟩

/-- C2 counterexample: on a connected session, when `sftp.put` fails, the
error propagates to the caller but `sftp.close()` is never reached — the
file-transfer channel is NOT closed on the failure path, contradicting the
claimed unconditional (scoped) release. -/
theorem upload_no_close_on_failure_cex :
    (upload_file liveS (.fails "disk full") "/tmp/a.sh" "/tmp/b.sh").result =
      .error (.otherError "disk full") ∧
    SftpEvent.closed ∉
      (upload_file liveS (.fails "disk full") "/tmp/a.sh" "/tmp/b.sh").sftpEvents := by
  exact ⟨rfl, by decide⟩

/-- C2 amended: on a connected session, `upload_file` closes the transfer
channel on the success path, and on the failure path the error propagates
to the caller (it is logged and re-raised, never converted to a sentinel)
but the channel is left unclosed. -/
theorem upload_channel_paths (s : SSHState) (lp rp : String)
    (h : isLive s = true) :
    (upload_file s .ok lp rp =
      { result := .ok true, sftpEvents := [.opened, .putCall, .closed],
        logs := [.infoMsg ("Successfully uploaded " ++ lp ++ " to " ++ rp)] }) ∧
    (∀ m, upload_file s (.fails m) lp rp =
      { result := .error (.otherError m), sftpEvents := [.opened, .putCall],
        logs := [.errorMsg ("File upload failed: " ++ m)] }) := by
  constructor
  · simp [upload_file, h]
  · intro m; simp [upload_file, h]

theorem upload_channel_paths_witness :
    isLive liveS = true ∧
    upload_file liveS .ok "/tmp/a.sh" "/tmp/b.sh" =
      { result := .ok true, sftpEvents := [.opened, .putCall, .closed],
        logs := [.infoMsg "Successfully uploaded /tmp/a.sh to /tmp/b.sh"] } :=
  ⟨rfl, ((upload_channel_paths liveS "/tmp/a.sh" "/tmp/b.sh" rfl).1).trans (by decide)⟩

/-- C3 counterexample: when the underlying `close()` raises, the handler
only logs — `self.connected = False` is skipped, so the session is NOT
left in the Disconnected state (the connected flag remains true). -/
theorem disconnect_close_error_cex :
    disconnect liveS (.raises "boom") =
      (liveS, [.errorMsg ("Error during disconnect: " ++
        reprStr (PyError.otherError "boom"))]) ∧
    liveS.connected = true := by
  exact ⟨rfl, rfl⟩

/-- C3 amended: `disconnect` never raises (any error from the transport
close is caught and only logged), it is a no-op on a session that never
connected, it is idempotent on the attribute state, and it clears the
connected flag whenever the close succeeds; but when the close raises, the
state — including the connected flag — is left unchanged rather than
forced to Disconnected. -/
theorem disconnect_idempotent_no_raise (s : SSHState) (cb : CloseOutcome) :
    (s.client = none → disconnect s cb = (s, [])) ∧
    (s.client.isSome = true → cb = .ok →
      (disconnect s cb).1 = { s with connected := false }) ∧
    (∀ m, cb = .raises m → (disconnect s cb).1 = s) ∧
    (disconnect (disconnect s cb).1 cb).1 = (disconnect s cb).1 := by
  rcases s with ⟨ho, u, p, k, po, t, cl, co⟩
  cases cl <;> cases cb <;>
    simp [disconnect, close_transport]

theorem disconnect_idempotent_no_raise_witness :
    ((disconnect deadS .ok = (deadS, [])) ∧
      (disconnect liveS .ok).1 = { liveS with connected := false }) ∧
    (disconnect liveS (.raises "boom")).1 = liveS ∧
    (disconnect (disconnect liveS .ok).1 .ok).1 = (disconnect liveS .ok).1 :=
  ⟨⟨(disconnect_idempotent_no_raise deadS .ok).1 rfl,
    (disconnect_idempotent_no_raise liveS .ok).2.1 rfl rfl⟩,
   (disconnect_idempotent_no_raise liveS (.raises "boom")).2.2.1 "boom" rfl,
   (disconnect_idempotent_no_raise liveS .ok).2.2.2⟩

/-- C4 counterexample: on a transport failure mid-execution
(`paramiko.SSHException`) the returned `stdout` is the empty string — the
output captured before the failure is discarded, not reflected in the
result as claimed. -/
theorem execute_transport_failure_stdout_cex :
    (execute_command liveS (.sshException "Connection lost" "half of the output")
        "ls" 60).result =
      .ok { stdout := "", stderr := "Connection lost", return_code := -1,
            command := "ls" } ∧
    ¬ ((execute_command liveS (.sshException "Connection lost" "half of the output")
        "ls" 60).result =
      .ok { stdout := "half of the output", stderr := "Connection lost",
            return_code := -1, command := "ls" }) := by
  exact ⟨rfl, by decide⟩

/-- C4 amended: on a transport failure mid-execution, `execute_command`
returns `return_code = -1` with the diagnostic message in `stderr`, and
`stdout` is always the empty string — any output captured before the
failure is discarded. -/
theorem execute_transport_failure_empty_stdout (s : SSHState)
    (msg captured cmd : String) (t : Nat) (h : isLive s = true) :
    (execute_command s (.sshException msg captured) cmd t).result =
      .ok { stdout := "", stderr := msg, return_code := -1, command := cmd } := by
  simp [execute_command, execResult, h]

theorem execute_transport_failure_empty_stdout_witness :
    isLive liveS = true ∧
    (execute_command liveS (.sshException "Connection lost" "half of the output")
        "ls" 60).result =
      .ok { stdout := "", stderr := "Connection lost", return_code := -1,
            command := "ls" } :=
  ⟨rfl, execute_transport_failure_empty_stdout liveS "Connection lost"
    "half of the output" "ls" 60 rfl⟩

/-- C5 counterexample: on the timeout branch no stdout preview is emitted
to the logging collaborator — the preview is not logged "regardless of
outcome". -/
theorem execute_no_preview_on_timeout_cex :
    hasPreview (execute_command liveS (.socketTimeout "") "ls" 60).logs = false := by
  decide

/-- C5 amended: the truncated preview (first 10 lines of stdout) is
emitted only on normal completion; on each of the three error branches
(transport failure, timeout, other internal failure) only the error line
is logged and no preview event is emitted. -/
theorem execute_preview_only_normal (s : SSHState) (out err msg cap cmd : String)
    (code t : Nat) (h : isLive s = true) :
    ((execute_command s (.ok out err code) cmd t).logs =
      [.debugMsg ("Executing command: " ++ cmd),
       .debugMsg ("Command completed with return code: " ++ toString code),
       .debugPreview (previewOf out)] ∧
     hasPreview (execute_command s (.ok out err code) cmd t).logs = true) ∧
    hasPreview (execute_command s (.sshException msg cap) cmd t).logs = false ∧
    hasPreview (execute_command s (.socketTimeout cap) cmd t).logs = false ∧
    hasPreview (execute_command s (.otherException msg cap) cmd t).logs = false := by
  refine ⟨⟨?_, ?_⟩, ?_, ?_, ?_⟩ <;>
    simp [execute_command, execLogs, hasPreview, h]

theorem execute_preview_only_normal_witness :
    isLive liveS = true ∧
    hasPreview (execute_command liveS (.ok "a\nb" "" 0) "ls" 60).logs = true ∧
    hasPreview (execute_command liveS (.sshException "lost" "") "ls" 60).logs = false :=
  ⟨rfl,
   (execute_preview_only_normal liveS "a\nb" "" "lost" "" "ls" 0 60 rfl).1.2,
   (execute_preview_only_normal liveS "a\nb" "" "lost" "" "ls" 0 60 rfl).2.1⟩

/-- C6: when the client-side wait exceeds the timeout (`socket.timeout`
raised), `execute_command` returns — it does not raise — a result with
`return_code = -2` and a `stderr` stating the timeout duration. -/
theorem execute_timeout_sentinel (s : SSHState) (cap cmd : String) (t : Nat)
    (h : isLive s = true) :
    (execute_command s (.socketTimeout cap) cmd t).result =
      .ok { stdout := "",
            stderr := "Command timed out after " ++ toString t ++ " seconds",
            return_code := -2, command := cmd } := by
  simp [execute_command, execResult, h]

theorem execute_timeout_sentinel_witness :
    isLive liveS = true ∧
    (execute_command liveS (.socketTimeout "") "sleep 5" 1).result =
      .ok { stdout := "", stderr := "Command timed out after 1 seconds",
            return_code := -2, command := "sleep 5" } :=
  ⟨rfl, (execute_timeout_sentinel liveS "" "sleep 5" 1 rfl).trans (by decide)⟩

/-- C7: `connect` credential precedence — a truthy key reference selects
key authentication (even when a password is also set); otherwise a truthy
password selects password authentication; with neither credential, the
`ValueError` (the `ConfigError`) is raised before the network call, the
catch-all converts it to a `False` return with the cause logged, and zero
network calls are made (no socket I/O). -/
theorem connect_credential_precedence (s : SSHState) (net : NetOutcome) :
    (truthy s.key_filename = true →
      (connect s net).attemptedAuth = some (.key (s.key_filename.getD ""))) ∧
    (truthy s.key_filename = false → truthy s.password = true →
      (connect s net).attemptedAuth = some (.password (s.password.getD ""))) ∧
    (truthy s.key_filename = false → truthy s.password = false →
      connect s net =
        { state := { s with client := some () }, returned := false,
          raised := some (.valueError "Must provide either password or key file"),
          networkCalls := 0, attemptedAuth := none,
          logs := [.errorMsg
            "Unexpected connection error: Must provide either password or key file"] }) := by
  refine ⟨fun hk => ?_, fun hk hp => ?_, fun hk hp => ?_⟩
  · simp [connect, hk]; cases net <;> rfl
  · simp [connect, hk, hp]; cases net <;> rfl
  · simp [connect, hk, hp]

theorem connect_credential_precedence_witness :
    (connect bothCreds .success).attemptedAuth = some (.key "/k") ∧
    (connect pwOnly .success).attemptedAuth = some (.password "pw") ∧
    connect noCreds .success =
      { state := { noCreds with client := some () }, returned := false,
        raised := some (.valueError "Must provide either password or key file"),
        networkCalls := 0, attemptedAuth := none,
        logs := [.errorMsg
          "Unexpected connection error: Must provide either password or key file"] } :=
  ⟨(connect_credential_precedence bothCreds .success).1 (by decide),
   (connect_credential_precedence pwOnly .success).2.1 (by decide) (by decide),
   (connect_credential_precedence noCreds .success).2.2 (by decide) (by decide)⟩

/-- Comparing a cast natural number with the integer 0 agrees with the
comparison over the naturals. -/
theorem natCast_beq_zero (n : Nat) : (((n : Int) == 0) = (n == 0)) := by
  cases n <;> rfl

/-- C8: `test_connectivity` returns true exactly when the session is live
and the canary round-trip completes normally with remote exit code 0 and
the marker `connectivity_test` occurring in stdout; every error path —
including the dead-session `RuntimeError`, swallowed by the bare
`except` — yields false, and the function is total (never raises). -/
theorem test_connectivity_iff (s : SSHState) (outcome : TransportOutcome) :
    test_connectivity s outcome =
      (isLive s &&
        match outcome with
        | .ok out _ code => code == 0 && strContains out "connectivity_test"
        | _ => false) := by
  cases hl : isLive s <;> cases outcome <;>
    simp [test_connectivity, execute_command, execResult, hl, natCast_beq_zero]

/-- C9: on a live session, `get_system_info` returns a mapping over exactly
the eight probe names in order, each resolved by one `execute_command` call
with the default timeout, substituting `"Unknown"` whenever the probe's
exit code (including the negative client-side sentinels) is nonzero and the
stripped stdout otherwise. -/
theorem get_system_info_probes (s : SSHState) (probe : String → TransportOutcome)
    (h : isLive s = true) :
    infoCommands.map Prod.fst =
      ["hostname", "kernel", "os", "architecture", "uptime", "whoami", "id", "pwd"] ∧
    get_system_info s probe =
      .ok (infoCommands.map (fun kc =>
        (kc.1,
         if (execResult (probe kc.2) kc.2 60).return_code == 0
         then pyStrip (execResult (probe kc.2) kc.2 60).stdout
         else "Unknown"))) := by
  refine ⟨by decide, ?_⟩
  simp [get_system_info, infoCommands, systemInfoLoop, execute_command, h]

theorem get_system_info_probes_witness :
    isLive liveS = true ∧
    get_system_info liveS
        (fun c => if c == "uptime" then .sshException "lost" "" else .ok " x \n" "" 0) =
      .ok [("hostname", "x"), ("kernel", "x"), ("os", "x"), ("architecture", "x"),
           ("uptime", "Unknown"), ("whoami", "x"), ("id", "x"), ("pwd", "x")] :=
  ⟨rfl,
   ((get_system_info_probes liveS
      (fun c => if c == "uptime" then .sshException "lost" "" else .ok " x \n" "" 0)
      rfl).2).trans (by decide)⟩

/-- C10: on a live session `execute_command` always returns (never raises)
a record of the fixed shape `CommandResult` — exactly the four fields
`stdout`, `stderr`, `return_code`, `command` — whose `command` field equals
the command passed in on the normal path and on all three error branches,
and whose `stdout` is the empty string on each error branch. -/
theorem execute_result_shape (s : SSHState) (out err msg cap cmd : String)
    (code t : Nat) (h : isLive s = true) :
    ((execute_command s (.ok out err code) cmd t).result =
      .ok { stdout := out, stderr := err, return_code := (code : Int),
            command := cmd }) ∧
    ((execute_command s (.sshException msg cap) cmd t).result =
      .ok { stdout := "", stderr := msg, return_code := -1, command := cmd }) ∧
    ((execute_command s (.socketTimeout cap) cmd t).result =
      .ok { stdout := "",
            stderr := "Command timed out after " ++ toString t ++ " seconds",
            return_code := -2, command := cmd }) ∧
    ((execute_command s (.otherException msg cap) cmd t).result =
      .ok { stdout := "", stderr := msg, return_code := -3, command := cmd }) := by
  refine ⟨?_, ?_, ?_, ?_⟩ <;> simp [execute_command, execResult, h]

theorem execute_result_shape_witness :
    isLive liveS = true ∧
    (execute_command liveS (.ok "hi\n" "" 0) "echo hi" 60).result =
      .ok { stdout := "hi\n", stderr := "", return_code := 0, command := "echo hi" } ∧
    (execute_command liveS (.otherException "boom" "") "echo hi" 60).result =
      .ok { stdout := "", stderr := "boom", return_code := -3, command := "echo hi" } :=
  ⟨rfl,
   (execute_result_shape liveS "hi\n" "" "boom" "" "echo hi" 0 60 rfl).1,
   (execute_result_shape liveS "hi\n" "" "boom" "" "echo hi" 0 60 rfl).2.2.2⟩

end SSHSpec
